import Mathlib

/-!
Shallow embedding of the Water Balance Engine of `src/Simulation.py`
(HOPE Rwanda stormwater sandbox).  Python floats are modelled as exact
rationals; the sequential reassignments of `CN_effective` and
`effective_runoff_m3` in the source are translated into named
intermediate definitions; the Streamlit widget layer only supplies the
input record, which is modelled by the `Config` structure (with the
convention of the source that a disabled measure has its parameters
zeroed, lines 68, 76, 90-91, 100).
-/

/-- Slope condition selector, source line 52. -/
inductive Slope where
  | low
  | moderate
  | steep
deriving DecidableEq

/-- Slope factor map, source line 53: `{"Low": 0.95, "Moderate": 1.00, "Steep": 1.05}`. -/
def Slope.factor : Slope → ℚ
  | .low => 0.95
  | .moderate => 1.00
  | .steep => 1.05

/-- The input record assembled by the sidebar (source lines 42-100). -/
structure Config where
  P_mm : ℚ
  catchment_area_m2 : ℚ
  roof_area_m2 : ℚ
  base_CN : ℚ
  slope_note : Slope
  harv_on : Bool
  storage_per_unit_L : ℚ
  n_units : ℕ
  first_flush_mm : ℚ
  vetiver_on : Bool
  vetiver_CN_delta : ℚ
  vetiver_infiltration_boost : ℚ
  hug_on : Bool
  n_beds : ℕ
  bed_length_m : ℚ
  bed_width_m : ℚ
  bed_core_depth_m : ℚ
  core_porosity : ℚ
  border_loss_factor : ℚ
  hug_intercept_share : ℚ
  pp_on : Bool
  pp_CN_delta : ℚ
  pp_infiltration_share : ℚ
  pp_fraction_of_catch : ℚ

/-- Source lines 105-111: SCS-CN runoff depth (mm). -/
def scs_runoff_depth_mm (P CN : ℚ) : ℚ :=
  let S := 25400 / CN - 254
  let Ia := 0.2 * S
  if P ≤ Ia then 0 else (P - Ia) ^ 2 / (P + 0.8 * S)

/-- Source lines 113-114: `liters(m3) = m3 * 1000.0`. -/
def liters (m3 : ℚ) : ℚ := m3 * 1000

/-- Source lines 116-117: depth (mm) over an area to a volume (m³). -/
def m3_from_mm_over_area (mm area_m2 : ℚ) : ℚ := (mm / 1000) * area_m2

/-- Source lines 122-124: curve number after the vetiver step
(the first two assignments to the `CN_effective` variable). -/
def CN_after_vetiver (cfg : Config) : ℚ :=
  if cfg.vetiver_on then max 30 (cfg.base_CN - cfg.vetiver_CN_delta) else cfg.base_CN

/-- Source lines 125-127: curve number after the permeable-pavement blend
(the third assignment to the `CN_effective` variable). -/
def CN_after_pp (cfg : Config) : ℚ :=
  if cfg.pp_on then
    (1 - cfg.pp_fraction_of_catch) * CN_after_vetiver cfg
      + cfg.pp_fraction_of_catch * max 30 (CN_after_vetiver cfg - cfg.pp_CN_delta)
  else CN_after_vetiver cfg

/-- Source line 129: final effective curve number, slope-adjusted. -/
def CN_effective (cfg : Config) : ℚ := CN_after_pp cfg * cfg.slope_note.factor

/-- Source line 131: baseline runoff depth. -/
def Q_mm (cfg : Config) : ℚ := scs_runoff_depth_mm cfg.P_mm (CN_effective cfg)

/-- Source line 132: baseline runoff volume. -/
def baseline_runoff_m3 (cfg : Config) : ℚ :=
  m3_from_mm_over_area (Q_mm cfg) cfg.catchment_area_m2

/-- Source line 137: effective harvestable rooftop depth after the first flush. -/
def harvest_P_effective_mm (cfg : Config) : ℚ :=
  if cfg.harv_on then max 0 (cfg.P_mm - cfg.first_flush_mm) else 0

/-- Source line 138: rooftop yield volume. -/
def roof_yield_m3 (cfg : Config) : ℚ :=
  m3_from_mm_over_area (harvest_P_effective_mm cfg) cfg.roof_area_m2

/-- Source line 139: `liters(storage_per_unit_L * n_units) / 1000.0`. -/
def total_rooftop_storage_m3 (cfg : Config) : ℚ :=
  liters (cfg.storage_per_unit_L * (cfg.n_units : ℚ)) / 1000

/-- Source line 140: captured rooftop volume. -/
def captured_roof_m3 (cfg : Config) : ℚ :=
  if cfg.harv_on then min (roof_yield_m3 cfg) (total_rooftop_storage_m3 cfg) else 0

/-- Source line 141: rooftop overflow volume. -/
def roof_overflow_m3 (cfg : Config) : ℚ :=
  max 0 (roof_yield_m3 cfg - captured_roof_m3 cfg)

/-- Source line 146: gross geometric core volume of the beds. -/
def hugel_core_vol_m3 (cfg : Config) : ℚ :=
  (cfg.n_beds : ℚ) * cfg.bed_length_m * cfg.bed_width_m * cfg.bed_core_depth_m

/-- Source line 147: usable mound-bed storage capacity. -/
def hugel_storage_m3 (cfg : Config) : ℚ :=
  hugel_core_vol_m3 cfg * cfg.core_porosity * (1 - cfg.border_loss_factor)

/-- Source line 149: runoff intercepted by the beds, capped at capacity. -/
def hugel_intercepted_m3 (cfg : Config) : ℚ :=
  if cfg.hug_on then
    min (baseline_runoff_m3 cfg * cfg.hug_intercept_share) (hugel_storage_m3 cfg)
  else 0

/-- Source line 150: mound-bed overflow. -/
def hugel_overflow_m3 (cfg : Config) : ℚ :=
  max 0 (baseline_runoff_m3 cfg * cfg.hug_intercept_share - hugel_intercepted_m3 cfg)

/-- Source line 156: incident rainfall on the converted sub-area. -/
def pp_incident_rain_m3 (cfg : Config) : ℚ :=
  if cfg.pp_on then
    m3_from_mm_over_area cfg.P_mm (cfg.catchment_area_m2 * cfg.pp_fraction_of_catch)
  else 0

/-- Source line 157: direct infiltration on the permeable sub-area. -/
def pp_direct_infiltration_m3 (cfg : Config) : ℚ :=
  if cfg.pp_on then pp_incident_rain_m3 cfg * cfg.pp_infiltration_share else 0

/-- Source line 163: runoff remaining after mound-bed interception. -/
def remaining_runoff_after_hugel (cfg : Config) : ℚ :=
  max 0 (baseline_runoff_m3 cfg - hugel_intercepted_m3 cfg)

/-- Source line 164: vetiver extra infiltration on the post-interception remainder. -/
def vetiver_extra_infiltration_m3 (cfg : Config) : ℚ :=
  if cfg.vetiver_on then remaining_runoff_after_hugel cfg * cfg.vetiver_infiltration_boost
  else 0

/-- Source lines 178-186: the three sequential assignments combining the flows. -/
def effective_runoff_m3 (cfg : Config) : ℚ :=
  let r1 := max 0 (baseline_runoff_m3 cfg - hugel_intercepted_m3 cfg
      - vetiver_extra_infiltration_m3 cfg) + hugel_overflow_m3 cfg
  let r2 := max 0 (r1 - pp_direct_infiltration_m3 cfg)
  r2 + roof_overflow_m3 cfg

/-- Source line 196: runoff reduction ratio with the epsilon guard. -/
def reduction_ratio (cfg : Config) : ℚ :=
  1 - effective_runoff_m3 cfg / (baseline_runoff_m3 cfg + 1e-9)

/-- Source lines 197-200: unclamped protection score (the Python boolean factor
`hug_on * x` is modelled by an `if`). -/
def score_raw (cfg : Config) : ℚ :=
  40 * max 0 (reduction_ratio cfg)
    + 20 * (if cfg.vetiver_on then 1 else 0)
    + 20 * cfg.pp_fraction_of_catch
    + 20 * min 1 (if cfg.hug_on then
        hugel_intercepted_m3 cfg / (hugel_storage_m3 cfg + 1e-9) else 0)

/-- Source line 202: `np.clip(score, 0, 100)`. -/
def score (cfg : Config) : ℚ := min (max (score_raw cfg) 0) 100

/-- Validity of an input record, following the ranges of the data model
(storm depth and catchment area positive, base curve number in `[30, 100)`,
every share or fraction in its stated range, every physical parameter
nonnegative, with the convention that a disabled measure has its
parameters zeroed, so the lower bounds of enabled-only parameters relax
to `0 ≤ _`). -/
structure ValidConfig (cfg : Config) : Prop where
  P_pos : 0 < cfg.P_mm
  area_pos : 0 < cfg.catchment_area_m2
  roof_nonneg : 0 ≤ cfg.roof_area_m2
  CN_lb : 30 ≤ cfg.base_CN
  CN_ub : cfg.base_CN < 100
  storage_nonneg : 0 ≤ cfg.storage_per_unit_L
  first_flush_nonneg : 0 ≤ cfg.first_flush_mm
  vetiver_delta_nonneg : 0 ≤ cfg.vetiver_CN_delta
  vetiver_boost_lb : 0 ≤ cfg.vetiver_infiltration_boost
  vetiver_boost_ub : cfg.vetiver_infiltration_boost ≤ 1
  bed_length_nonneg : 0 ≤ cfg.bed_length_m
  bed_width_nonneg : 0 ≤ cfg.bed_width_m
  bed_core_depth_nonneg : 0 ≤ cfg.bed_core_depth_m
  core_porosity_lb : 0 ≤ cfg.core_porosity
  core_porosity_ub : cfg.core_porosity ≤ 1
  border_loss_lb : 0 ≤ cfg.border_loss_factor
  border_loss_ub : cfg.border_loss_factor ≤ 1
  hug_share_lb : 0 ≤ cfg.hug_intercept_share
  hug_share_ub : cfg.hug_intercept_share ≤ 1
  pp_delta_nonneg : 0 ≤ cfg.pp_CN_delta
  pp_infiltration_lb : 0 ≤ cfg.pp_infiltration_share
  pp_infiltration_ub : cfg.pp_infiltration_share ≤ 1
  pp_fraction_lb : 0 ≤ cfg.pp_fraction_of_catch
  pp_fraction_ub : cfg.pp_fraction_of_catch ≤ 1

/-- Every slope factor is positive. -/
theorem Slope.factor_pos (s : Slope) : 0 < s.factor := by
  cases s <;> norm_num [Slope.factor]

/-- Combiner as worded in the spec (§4.7): `R1 = max(0, baseline − intercepted −
hedgerowExtra) + moundOverflow`, `R2 = max(0, R1 − pavementInfiltration)`,
`Reffective = R2 + roofOverflow`. -/
def combiner_spec (baseline intercepted hedgerowExtra moundOverflow
    pavementInfiltration rooftopOverflow : ℚ) : ℚ :=
  let R1 := max 0 (baseline - intercepted - hedgerowExtra) + moundOverflow
  let R2 := max 0 (R1 - pavementInfiltration)
  R2 + rooftopOverflow

/-- C5: the combiner computes effective runoff in exactly the order of §4.7:
first floor the baseline minus mound-bed interception minus hedgerow extra
infiltration at 0 and add the mound-bed overflow, then subtract pavement
direct infiltration and floor again, then add the rooftop overflow
unconditionally outside both floors. -/
theorem combiner_matches_spec (cfg : Config) :
    effective_runoff_m3 cfg =
      combiner_spec (baseline_runoff_m3 cfg) (hugel_intercepted_m3 cfg)
        (vetiver_extra_infiltration_m3 cfg) (hugel_overflow_m3 cfg)
        (pp_direct_infiltration_m3 cfg) (roof_overflow_m3 cfg) := rfl

/-- C7: the final protection score is clamped into `[0, 100]` for every input
record, in particular for every valid one, including the degenerate case of a
zero baseline runoff volume. -/
theorem score_in_range (cfg : Config) : 0 ≤ score cfg ∧ score cfg ≤ 100 := by
  unfold score
  exact ⟨le_min (le_max_right _ _) (by norm_num), min_le_right _ _⟩

/-- C9: with mound beds enabled, the intercepted volume and the mound-bed
overflow volume split `baselineRunoff × interceptShare` exactly: their sum
is that product, nothing lost or created. -/
theorem hugel_split_conserved (cfg : Config) (h : cfg.hug_on = true) :
    hugel_intercepted_m3 cfg + hugel_overflow_m3 cfg =
      baseline_runoff_m3 cfg * cfg.hug_intercept_share := by
  simp only [hugel_intercepted_m3, hugel_overflow_m3, h, if_true]
  rw [max_eq_right (sub_nonneg.mpr (min_le_left _ _))]
  ring

/-- C10: with base curve number at least 30, nonnegative CN reductions and a
converted-area fraction in `[0, 1]`, the effective curve number is at most
the base curve number times the slope factor. -/
theorem CN_effective_le_base_times_slope (cfg : Config)
    (h30 : 30 ≤ cfg.base_CN) (hvd : 0 ≤ cfg.vetiver_CN_delta)
    (hpd : 0 ≤ cfg.pp_CN_delta) (hf0 : 0 ≤ cfg.pp_fraction_of_catch)
    (hf1 : cfg.pp_fraction_of_catch ≤ 1) :
    CN_effective cfg ≤ cfg.base_CN * cfg.slope_note.factor := by
  have h1 : 30 ≤ CN_after_vetiver cfg ∧ CN_after_vetiver cfg ≤ cfg.base_CN := by
    unfold CN_after_vetiver
    split
    · exact ⟨le_max_left _ _, max_le h30 (by linarith)⟩
    · exact ⟨h30, le_refl _⟩
  have h2 : CN_after_pp cfg ≤ CN_after_vetiver cfg := by
    unfold CN_after_pp
    split
    · have hm : max 30 (CN_after_vetiver cfg - cfg.pp_CN_delta) ≤ CN_after_vetiver cfg :=
        max_le h1.1 (by linarith)
      nlinarith [mul_le_mul_of_nonneg_left hm hf0]
    · exact le_refl _
  exact mul_le_mul_of_nonneg_right (h2.trans h1.2) (cfg.slope_note.factor_pos).le

/-- Unfolding of the runoff-depth calculator with its local bindings inlined. -/
theorem scs_runoff_depth_mm_def (P CN : ℚ) :
    scs_runoff_depth_mm P CN =
      if P ≤ 0.2 * (25400 / CN - 254) then 0
      else (P - 0.2 * (25400 / CN - 254)) ^ 2 / (P + 0.8 * (25400 / CN - 254)) := rfl

/-- The potential maximum retention is nonnegative for curve numbers in `(0, 100]`. -/
theorem retention_nonneg (CN : ℚ) (h0 : 0 < CN) (h1 : CN ≤ 100) :
    0 ≤ 25400 / CN - 254 := by
  rw [sub_nonneg, le_div_iff h0]
  linarith

/-- The potential maximum retention is antitone in the curve number. -/
theorem retention_antitone (CN1 CN2 : ℚ) (h0 : 0 < CN1) (h12 : CN1 ≤ CN2) :
    25400 / CN2 - 254 ≤ 25400 / CN1 - 254 := by
  have h02 : 0 < CN2 := lt_of_lt_of_le h0 h12
  rw [sub_le_sub_iff_right, div_le_div_iff h02 h0]
  nlinarith

/-- Both branches of the SCS formula are nonnegative once retention and storm
depth are nonnegative. -/
theorem scs_aux_nonneg (P S : ℚ) (hP : 0 ≤ P) (hS : 0 ≤ S) :
    0 ≤ (if P ≤ 0.2 * S then (0:ℚ) else (P - 0.2 * S) ^ 2 / (P + 0.8 * S)) := by
  split
  · exact le_refl 0
  · exact div_nonneg (sq_nonneg _) (by linarith)

/-- The SCS branch expression is antitone in the retention parameter. -/
theorem scs_aux_mono_S (P S1 S2 : ℚ) (hP : 0 ≤ P) (hS2 : 0 ≤ S2) (h21 : S2 ≤ S1) :
    (if P ≤ 0.2 * S1 then (0:ℚ) else (P - 0.2 * S1) ^ 2 / (P + 0.8 * S1)) ≤
      (if P ≤ 0.2 * S2 then (0:ℚ) else (P - 0.2 * S2) ^ 2 / (P + 0.8 * S2)) := by
  rcases le_or_lt P (0.2 * S1) with h1 | h1
  · rw [if_pos h1]
    exact scs_aux_nonneg P S2 hP hS2
  · have h2 : 0.2 * S2 < P := by linarith
    rw [if_neg (not_le.mpr h1), if_neg (not_le.mpr h2)]
    have hd2 : 0 < P + 0.8 * S2 := by linarith
    have hd1 : 0 < P + 0.8 * S1 := by linarith
    rw [div_le_div_iff hd1 hd2]
    have hsq : (P - 0.2 * S1) ^ 2 ≤ (P - 0.2 * S2) ^ 2 := by nlinarith
    calc (P - 0.2 * S1) ^ 2 * (P + 0.8 * S2)
        ≤ (P - 0.2 * S2) ^ 2 * (P + 0.8 * S2) :=
          mul_le_mul_of_nonneg_right hsq hd2.le
      _ ≤ (P - 0.2 * S2) ^ 2 * (P + 0.8 * S1) :=
          mul_le_mul_of_nonneg_left (by linarith) (sq_nonneg _)

/-- The SCS branch expression is monotone in the storm depth. -/
theorem scs_aux_mono_P (P1 P2 S : ℚ) (hP1 : 0 ≤ P1) (h12 : P1 ≤ P2) (hS : 0 ≤ S) :
    (if P1 ≤ 0.2 * S then (0:ℚ) else (P1 - 0.2 * S) ^ 2 / (P1 + 0.8 * S)) ≤
      (if P2 ≤ 0.2 * S then (0:ℚ) else (P2 - 0.2 * S) ^ 2 / (P2 + 0.8 * S)) := by
  rcases le_or_lt P1 (0.2 * S) with h1 | h1
  · rw [if_pos h1]
    exact scs_aux_nonneg P2 S (by linarith) hS
  · have h2 : 0.2 * S < P2 := lt_of_lt_of_le h1 h12
    rw [if_neg (not_le.mpr h1), if_neg (not_le.mpr h2)]
    have hd1 : 0 < P1 + 0.8 * S := by linarith
    have hd2 : 0 < P2 + 0.8 * S := by linarith
    rw [div_le_div_iff hd1 hd2]
    have ha : 0 ≤ P1 - 0.2 * S := by linarith
    have hb : 0 ≤ P2 - 0.2 * S := by linarith
    have hab : 0 ≤ (P2 - 0.2 * S) - (P1 - 0.2 * S) := by linarith
    nlinarith [mul_nonneg hab (mul_nonneg ha hb),
      mul_nonneg (mul_nonneg hab (add_nonneg ha hb)) hS]

/-- C4: the runoff-depth calculator returns 0 when `P ≤ Ia = 0.2·(25400/CN − 254)`
and `(P − Ia)² / (P + 0.8·S)` otherwise, and for every `CN ∈ (0, 100]` and
`P ≥ 0` the returned depth is nonnegative. -/
theorem scs_branches_and_nonneg (P CN : ℚ) (hCN0 : 0 < CN) (hCN1 : CN ≤ 100)
    (hP : 0 ≤ P) :
    (P ≤ 0.2 * (25400 / CN - 254) → scs_runoff_depth_mm P CN = 0)
    ∧ (¬ P ≤ 0.2 * (25400 / CN - 254) →
        scs_runoff_depth_mm P CN =
          (P - 0.2 * (25400 / CN - 254)) ^ 2 / (P + 0.8 * (25400 / CN - 254)))
    ∧ 0 ≤ scs_runoff_depth_mm P CN := by
  refine ⟨fun h => ?_, fun h => ?_, ?_⟩
  · rw [scs_runoff_depth_mm_def, if_pos h]
  · rw [scs_runoff_depth_mm_def, if_neg h]
  · rw [scs_runoff_depth_mm_def]
    exact scs_aux_nonneg P _ hP (retention_nonneg CN hCN0 hCN1)

/-- Witness for C4 at the concrete input `P = 80`, `CN = 85`. -/
theorem scs_branches_and_nonneg_witness :
    (0 < (85:ℚ) ∧ (85:ℚ) ≤ 100 ∧ (0:ℚ) ≤ 80) ∧ 0 ≤ scs_runoff_depth_mm 80 85 :=
  ⟨⟨by norm_num, by norm_num, by norm_num⟩,
    (scs_branches_and_nonneg 80 85 (by norm_num) (by norm_num) (by norm_num)).2.2⟩

/-- C6: the runoff depth is monotone non-decreasing in the curve number for
`CN1 ≤ CN2` in `(0, 100]`, and monotone non-decreasing in the storm depth for
`0 ≤ P1 ≤ P2`. -/
theorem scs_monotone :
    (∀ P CN1 CN2 : ℚ, 0 ≤ P → 0 < CN1 → CN1 ≤ CN2 → CN2 ≤ 100 →
      scs_runoff_depth_mm P CN1 ≤ scs_runoff_depth_mm P CN2)
    ∧ (∀ P1 P2 CN : ℚ, 0 < CN → CN ≤ 100 → 0 ≤ P1 → P1 ≤ P2 →
      scs_runoff_depth_mm P1 CN ≤ scs_runoff_depth_mm P2 CN) := by
  constructor
  · intro P CN1 CN2 hP h0 h12 h100
    rw [scs_runoff_depth_mm_def, scs_runoff_depth_mm_def]
    exact scs_aux_mono_S P (25400 / CN1 - 254) (25400 / CN2 - 254) hP
      (retention_nonneg CN2 (lt_of_lt_of_le h0 h12) h100)
      (retention_antitone CN1 CN2 h0 h12)
  · intro P1 P2 CN h0 h100 hP1 h12
    rw [scs_runoff_depth_mm_def, scs_runoff_depth_mm_def]
    exact scs_aux_mono_P P1 P2 (25400 / CN - 254) hP1 h12
      (retention_nonneg CN h0 h100)

/-- Witness for C6 at the concrete inputs `P = 80`, `CN1 = 80 ≤ CN2 = 85` and
`P1 = 50 ≤ P2 = 80`, `CN = 85`. -/
theorem scs_monotone_witness :
    ((0:ℚ) ≤ 80 ∧ (0:ℚ) < 80 ∧ (80:ℚ) ≤ 85 ∧ (85:ℚ) ≤ 100) ∧
      scs_runoff_depth_mm 80 80 ≤ scs_runoff_depth_mm 80 85 ∧
      scs_runoff_depth_mm 50 85 ≤ scs_runoff_depth_mm 80 85 :=
  ⟨⟨by norm_num, by norm_num, by norm_num, by norm_num⟩,
    scs_monotone.1 80 80 85 (by norm_num) (by norm_num) (by norm_num) (by norm_num),
    scs_monotone.2 50 80 85 (by norm_num) (by norm_num) (by norm_num) (by norm_num)⟩

/-- The §8 scenario input with every measure disabled: storm depth 80 mm,
catchment 3000 m², rooftop catchment 400 m², base curve number 85,
moderate slope. -/
def cfgAllOff : Config where
  P_mm := 80
  catchment_area_m2 := 3000
  roof_area_m2 := 400
  base_CN := 85
  slope_note := .moderate
  harv_on := false
  storage_per_unit_L := 0
  n_units := 0
  first_flush_mm := 0
  vetiver_on := false
  vetiver_CN_delta := 0
  vetiver_infiltration_boost := 0
  hug_on := false
  n_beds := 0
  bed_length_m := 0
  bed_width_m := 0
  bed_core_depth_m := 0
  core_porosity := 0
  border_loss_factor := 0
  hug_intercept_share := 0
  pp_on := false
  pp_CN_delta := 0
  pp_infiltration_share := 0
  pp_fraction_of_catch := 0

/-- With every measure disabled the effective curve number is the base one. -/
theorem cfgAllOff_CN : CN_effective cfgAllOff = 85 := by
  norm_num [CN_effective, CN_after_pp, CN_after_vetiver, cfgAllOff, Slope.factor]

/-- Exact baseline runoff depth of the all-disabled scenario. -/
theorem cfgAllOff_Q : Q_mm cfgAllOff = 9114361 / 209270 := by
  rw [Q_mm, cfgAllOff_CN, show cfgAllOff.P_mm = 80 from rfl,
    scs_runoff_depth_mm_def, if_neg (by norm_num)]
  norm_num

/-- Exact baseline runoff volume of the all-disabled scenario. -/
theorem cfgAllOff_baseline : baseline_runoff_m3 cfgAllOff = 27343083 / 209270 := by
  rw [baseline_runoff_m3, cfgAllOff_Q,
    show cfgAllOff.catchment_area_m2 = 3000 from rfl, m3_from_mm_over_area]
  norm_num

/-- C2 (counterexample): at `P = 80`, area 3000 m², `CN₀ = 85`, moderate slope,
all measures disabled, the baseline runoff volume is not within 0.1 m³ of the
claimed 132.45 m³, and the retention is not the claimed 43.76 mm. -/
theorem baseline_scenario_cex :
    CN_effective cfgAllOff = 85 ∧
    25400 / CN_effective cfgAllOff - 254 ≠ 43.76 ∧
    ¬ |baseline_runoff_m3 cfgAllOff - 132.45| ≤ 0.1 := by
  refine ⟨cfgAllOff_CN, ?_, ?_⟩
  · rw [cfgAllOff_CN]
    norm_num
  · rw [cfgAllOff_baseline, abs_le]
    intro h
    exact absurd h.1 (by norm_num)

/-- C2 (amended): at `P = 80`, area 3000 m², `CN₀ = 85`, moderate slope, all
measures disabled, the engine computes `S = 25400/85 − 254 = 762/17 ≈ 44.82` mm,
`Ia = 762/85 ≈ 8.965` mm, runoff depth `Q = 9114361/209270 ≈ 43.55` mm, and a
baseline runoff volume within 0.1 m³ of 130.66 m³. -/
theorem baseline_scenario_amended :
    CN_effective cfgAllOff = 85 ∧
    25400 / CN_effective cfgAllOff - 254 = 762 / 17 ∧
    0.2 * (25400 / CN_effective cfgAllOff - 254) = 762 / 85 ∧
    Q_mm cfgAllOff = 9114361 / 209270 ∧
    |baseline_runoff_m3 cfgAllOff - 130.66| ≤ 0.1 := by
  refine ⟨cfgAllOff_CN, ?_, ?_, cfgAllOff_Q, ?_⟩
  · rw [cfgAllOff_CN]; norm_num
  · rw [cfgAllOff_CN]; norm_num
  · rw [cfgAllOff_baseline, abs_le]
    constructor <;> norm_num

/-- The §8 harvesting scenario: harvesting enabled with 10 units of 1000 L and
a 2 mm first flush on a 400 m² roof, storm depth 80 mm. -/
def cfgScenario : Config :=
  { cfgAllOff with
    harv_on := true
    storage_per_unit_L := 1000
    n_units := 10
    first_flush_mm := 2 }

/-- Rooftop yield of the harvesting scenario: `(78/1000)·400 = 31.2` m³. -/
theorem cfgScenario_yield : roof_yield_m3 cfgScenario = 31.2 := by
  rw [roof_yield_m3, harvest_P_effective_mm]
  norm_num [cfgScenario, cfgAllOff, m3_from_mm_over_area, max_def]

/-- C1 (code evaluation at the failing input): in the harvesting scenario the
code stores `liters(1000·10)/1000 = 10000` in `total_rooftop_storage_m3` — the
`liters` wrapper cancels the L→m³ division, leaving the capacity in litres —
so the capacity is not `unitVolumeL·unitCount/1000 = 10`, the captured volume
is the whole 31.2 m³ yield instead of 10 m³, and the overflow is 0 instead of
21.2 m³. -/
theorem rooftop_capacity_bug :
    total_rooftop_storage_m3 cfgScenario = 10000 ∧
    total_rooftop_storage_m3 cfgScenario ≠
      cfgScenario.storage_per_unit_L * (cfgScenario.n_units : ℚ) / 1000 ∧
    captured_roof_m3 cfgScenario = 31.2 ∧
    roof_overflow_m3 cfgScenario = 0 := by
  have hstore : total_rooftop_storage_m3 cfgScenario = 10000 := by
    norm_num [total_rooftop_storage_m3, liters, cfgScenario, cfgAllOff]
  have hcap : captured_roof_m3 cfgScenario = 31.2 := by
    rw [captured_roof_m3, if_pos (show cfgScenario.harv_on = true from rfl),
      cfgScenario_yield, hstore]
    norm_num [min_def]
  refine ⟨hstore, ?_, hcap, ?_⟩
  · rw [hstore]
    norm_num [cfgScenario, cfgAllOff]
  · rw [roof_overflow_m3, cfgScenario_yield, hcap]
    norm_num [max_def]

/-- A valid input with zero baseline runoff: base curve number 30, low slope,
every measure disabled, storm depth 80 mm (the initial abstraction at the
effective curve number 28.5 is about 127.4 mm, above the storm depth). -/
def cfgZeroBaseline : Config :=
  { cfgAllOff with
    base_CN := 30
    slope_note := .low }

/-- Effective curve number of the zero-baseline input: `30 · 0.95 = 28.5`. -/
theorem cfgZeroBaseline_CN : CN_effective cfgZeroBaseline = 28.5 := by
  norm_num [CN_effective, CN_after_pp, CN_after_vetiver, cfgZeroBaseline,
    cfgAllOff, Slope.factor]

/-- The zero-baseline input indeed produces a zero baseline runoff volume. -/
theorem cfgZeroBaseline_baseline : baseline_runoff_m3 cfgZeroBaseline = 0 := by
  rw [baseline_runoff_m3, Q_mm, cfgZeroBaseline_CN,
    show cfgZeroBaseline.P_mm = 80 from rfl, scs_runoff_depth_mm_def,
    if_pos (by norm_num)]
  norm_num [m3_from_mm_over_area]

/-- With harvesting disabled the rooftop overflow of the zero-baseline input is 0. -/
theorem cfgZeroBaseline_roof_overflow : roof_overflow_m3 cfgZeroBaseline = 0 := by
  norm_num [roof_overflow_m3, roof_yield_m3, captured_roof_m3,
    harvest_P_effective_mm, m3_from_mm_over_area, cfgZeroBaseline, cfgAllOff,
    max_def]

/-- The zero-baseline input with harvesting switched on: no tanks at all, so
the whole 31.2 m³ rooftop yield overflows to the ground system. -/
def cfgCexC3 : Config :=
  { cfgZeroBaseline with
    harv_on := true
    first_flush_mm := 2 }

/-- Baseline runoff of the zero-baseline-with-harvesting input is still 0. -/
theorem cfgCexC3_baseline : baseline_runoff_m3 cfgCexC3 = 0 := by
  have hCN : CN_effective cfgCexC3 = 28.5 := by
    norm_num [CN_effective, CN_after_pp, CN_after_vetiver, cfgCexC3,
      cfgZeroBaseline, cfgAllOff, Slope.factor]
  rw [baseline_runoff_m3, Q_mm, hCN, show cfgCexC3.P_mm = 80 from rfl,
    scs_runoff_depth_mm_def, if_pos (by norm_num)]
  norm_num [m3_from_mm_over_area]

/-- Rooftop overflow of the zero-baseline-with-harvesting input: the whole
31.2 m³ yield overflows, there being no tank at all. -/
theorem cfgCexC3_roof_overflow : roof_overflow_m3 cfgCexC3 = 31.2 := by
  norm_num [roof_overflow_m3, roof_yield_m3, captured_roof_m3,
    total_rooftop_storage_m3, liters, harvest_P_effective_mm,
    m3_from_mm_over_area, cfgCexC3, cfgZeroBaseline, cfgAllOff, max_def,
    min_def]

/-- C3 (counterexample): a valid input with zero baseline runoff but positive
rooftop overflow gives a reduction ratio far from 1.0 — the epsilon guard
divides the overflow by `1e-9` instead of yielding 1.0. -/
theorem zero_baseline_ratio_cex :
    ValidConfig cfgCexC3 ∧ baseline_runoff_m3 cfgCexC3 = 0 ∧
      reduction_ratio cfgCexC3 ≠ 1 := by
  have hint : hugel_intercepted_m3 cfgCexC3 = 0 := by
    simp [hugel_intercepted_m3, cfgCexC3, cfgZeroBaseline, cfgAllOff]
  have hover : hugel_overflow_m3 cfgCexC3 = 0 := by
    rw [hugel_overflow_m3, cfgCexC3_baseline, hint]
    norm_num
  have hvet : vetiver_extra_infiltration_m3 cfgCexC3 = 0 := by
    simp [vetiver_extra_infiltration_m3, cfgCexC3, cfgZeroBaseline, cfgAllOff]
  have hppd : pp_direct_infiltration_m3 cfgCexC3 = 0 := by
    simp [pp_direct_infiltration_m3, cfgCexC3, cfgZeroBaseline, cfgAllOff]
  have heff : effective_runoff_m3 cfgCexC3 = 31.2 := by
    simp only [effective_runoff_m3]
    rw [cfgCexC3_baseline, hint, hover, hvet, hppd, cfgCexC3_roof_overflow]
    norm_num
  refine ⟨?_, cfgCexC3_baseline, ?_⟩
  · constructor <;> norm_num [cfgCexC3, cfgZeroBaseline, cfgAllOff]
  · rw [reduction_ratio, heff, cfgCexC3_baseline]
    norm_num

/-- C3 (amended): for every valid input whose baseline runoff volume is 0 and
whose rooftop overflow is 0, the effective runoff is 0 and the reduction ratio
computed by the protection-score step equals 1.0, the epsilon guard preventing
a division fault; with a positive rooftop overflow the ratio instead falls
below 1 by overflow divided by `1e-9`. -/
theorem zero_baseline_ratio_amended (cfg : Config) (hv : ValidConfig cfg)
    (h0 : baseline_runoff_m3 cfg = 0) (hro : roof_overflow_m3 cfg = 0) :
    effective_runoff_m3 cfg = 0 ∧ reduction_ratio cfg = 1 := by
  have hstore : 0 ≤ hugel_storage_m3 cfg := by
    unfold hugel_storage_m3 hugel_core_vol_m3
    exact mul_nonneg (mul_nonneg (mul_nonneg (mul_nonneg (mul_nonneg
      (Nat.cast_nonneg _) hv.bed_length_nonneg) hv.bed_width_nonneg)
      hv.bed_core_depth_nonneg) hv.core_porosity_lb)
      (by linarith [hv.border_loss_ub])
  have hint : hugel_intercepted_m3 cfg = 0 := by
    unfold hugel_intercepted_m3
    split
    · rw [h0, zero_mul]
      exact min_eq_left hstore
    · rfl
  have hover : hugel_overflow_m3 cfg = 0 := by
    rw [hugel_overflow_m3, h0, hint, zero_mul, sub_zero, max_self]
  have hvet : vetiver_extra_infiltration_m3 cfg = 0 := by
    unfold vetiver_extra_infiltration_m3
    split
    · rw [remaining_runoff_after_hugel, h0, hint, sub_zero, max_self, zero_mul]
    · rfl
  have hppin : 0 ≤ pp_incident_rain_m3 cfg := by
    unfold pp_incident_rain_m3
    split
    · unfold m3_from_mm_over_area
      exact mul_nonneg (div_nonneg hv.P_pos.le (by norm_num))
        (mul_nonneg hv.area_pos.le hv.pp_fraction_lb)
    · exact le_refl 0
  have hppd : 0 ≤ pp_direct_infiltration_m3 cfg := by
    unfold pp_direct_infiltration_m3
    split
    · exact mul_nonneg hppin hv.pp_infiltration_lb
    · exact le_refl 0
  have heff : effective_runoff_m3 cfg = 0 := by
    simp only [effective_runoff_m3]
    rw [h0, hint, hvet, hover, hro, sub_zero, sub_zero, max_self, zero_add,
      add_zero, zero_sub, max_eq_left (neg_nonpos.mpr hppd)]
  exact ⟨heff, by rw [reduction_ratio, heff, h0]; norm_num⟩

/-- Witness for the amended C3 at the zero-baseline input with every measure
disabled. -/
theorem zero_baseline_ratio_amended_witness :
    (baseline_runoff_m3 cfgZeroBaseline = 0 ∧
      roof_overflow_m3 cfgZeroBaseline = 0) ∧
    effective_runoff_m3 cfgZeroBaseline = 0 ∧
      reduction_ratio cfgZeroBaseline = 1 :=
  ⟨⟨cfgZeroBaseline_baseline, cfgZeroBaseline_roof_overflow⟩,
    zero_baseline_ratio_amended cfgZeroBaseline
      (by constructor <;> norm_num [cfgZeroBaseline, cfgAllOff])
      cfgZeroBaseline_baseline cfgZeroBaseline_roof_overflow⟩

/-- C8: a disabled measure (enabled flag false, parameters zeroed per the
sidebar convention) contributes exactly 0 everywhere: harvesting yields,
captures and overflows 0; vetiver adds no infiltration, leaves the curve
number unreduced and its score term is 0; mound beds intercept and overflow
0 and their score term is 0; pavement infiltrates 0 directly, leaves the
curve number unchanged and its score term is 0. -/
theorem disabled_measures_contribute_zero (cfg : Config) :
    (cfg.harv_on = false →
      roof_yield_m3 cfg = 0 ∧ captured_roof_m3 cfg = 0 ∧
        roof_overflow_m3 cfg = 0)
    ∧ (cfg.vetiver_on = false →
      vetiver_extra_infiltration_m3 cfg = 0 ∧
        CN_after_vetiver cfg = cfg.base_CN ∧
        20 * (if cfg.vetiver_on then (1:ℚ) else 0) = 0)
    ∧ (cfg.hug_on = false → cfg.hug_intercept_share = 0 →
      hugel_intercepted_m3 cfg = 0 ∧ hugel_overflow_m3 cfg = 0 ∧
        20 * min 1 (if cfg.hug_on then
          hugel_intercepted_m3 cfg / (hugel_storage_m3 cfg + 1e-9) else 0) = 0)
    ∧ (cfg.pp_on = false → cfg.pp_fraction_of_catch = 0 →
      pp_incident_rain_m3 cfg = 0 ∧ pp_direct_infiltration_m3 cfg = 0 ∧
        CN_after_pp cfg = CN_after_vetiver cfg ∧
        20 * cfg.pp_fraction_of_catch = 0) := by
  refine ⟨fun h => ?_, fun h => ?_, fun h hs => ?_, fun h hf => ?_⟩
  · have hy : roof_yield_m3 cfg = 0 := by
      simp [roof_yield_m3, harvest_P_effective_mm, h, m3_from_mm_over_area]
    have hc : captured_roof_m3 cfg = 0 := by
      simp [captured_roof_m3, h]
    refine ⟨hy, hc, ?_⟩
    rw [roof_overflow_m3, hy, hc, sub_zero, max_self]
  · refine ⟨?_, ?_, ?_⟩
    · simp [vetiver_extra_infiltration_m3, h]
    · simp [CN_after_vetiver, h]
    · simp [h]
  · have hi : hugel_intercepted_m3 cfg = 0 := by
      simp [hugel_intercepted_m3, h]
    refine ⟨hi, ?_, ?_⟩
    · rw [hugel_overflow_m3, hi, hs, mul_zero, sub_zero, max_self]
    · simp [h]
  · refine ⟨?_, ?_, ?_, ?_⟩
    · simp [pp_incident_rain_m3, h]
    · simp [pp_direct_infiltration_m3, h]
    · simp [CN_after_pp, h]
    · rw [hf, mul_zero]

/-- Witness for C8 at the all-disabled scenario input. -/
theorem disabled_measures_contribute_zero_witness :
    (cfgAllOff.harv_on = false ∧ cfgAllOff.vetiver_on = false ∧
      cfgAllOff.hug_on = false ∧ cfgAllOff.pp_on = false ∧
      cfgAllOff.hug_intercept_share = 0 ∧ cfgAllOff.pp_fraction_of_catch = 0) ∧
    (roof_yield_m3 cfgAllOff = 0 ∧ captured_roof_m3 cfgAllOff = 0 ∧
      roof_overflow_m3 cfgAllOff = 0) ∧
    (vetiver_extra_infiltration_m3 cfgAllOff = 0 ∧
      CN_after_vetiver cfgAllOff = cfgAllOff.base_CN ∧
      20 * (if cfgAllOff.vetiver_on then (1:ℚ) else 0) = 0) ∧
    (hugel_intercepted_m3 cfgAllOff = 0 ∧ hugel_overflow_m3 cfgAllOff = 0 ∧
      20 * min 1 (if cfgAllOff.hug_on then
        hugel_intercepted_m3 cfgAllOff /
          (hugel_storage_m3 cfgAllOff + 1e-9) else 0) = 0) ∧
    (pp_incident_rain_m3 cfgAllOff = 0 ∧
      pp_direct_infiltration_m3 cfgAllOff = 0 ∧
      CN_after_pp cfgAllOff = CN_after_vetiver cfgAllOff ∧
      20 * cfgAllOff.pp_fraction_of_catch = 0) :=
  ⟨⟨rfl, rfl, rfl, rfl, rfl, rfl⟩,
    (disabled_measures_contribute_zero cfgAllOff).1 rfl,
    (disabled_measures_contribute_zero cfgAllOff).2.1 rfl,
    (disabled_measures_contribute_zero cfgAllOff).2.2.1 rfl rfl,
    (disabled_measures_contribute_zero cfgAllOff).2.2.2 rfl rfl⟩

/-- The all-disabled scenario with the mound beds switched on at their default
sidebar settings: 20 beds of 6 m × 1.2 m with a 0.6 m core at porosity 0.5,
15 % border losses, intercepting 30 % of the road runoff. -/
def cfgHugOn : Config :=
  { cfgAllOff with
    hug_on := true
    n_beds := 20
    bed_length_m := 6
    bed_width_m := 1.2
    bed_core_depth_m := 0.6
    core_porosity := 0.5
    border_loss_factor := 0.15
    hug_intercept_share := 0.3 }

/-- Witness for C9 at the default mound-bed input. -/
theorem hugel_split_conserved_witness :
    cfgHugOn.hug_on = true ∧
    hugel_intercepted_m3 cfgHugOn + hugel_overflow_m3 cfgHugOn =
      baseline_runoff_m3 cfgHugOn * cfgHugOn.hug_intercept_share :=
  ⟨rfl, hugel_split_conserved cfgHugOn rfl⟩

/-- Witness for C10 at the all-disabled scenario input. -/
theorem CN_effective_le_base_times_slope_witness :
    ((30:ℚ) ≤ cfgAllOff.base_CN ∧ (0:ℚ) ≤ cfgAllOff.vetiver_CN_delta ∧
      (0:ℚ) ≤ cfgAllOff.pp_CN_delta ∧ (0:ℚ) ≤ cfgAllOff.pp_fraction_of_catch ∧
      cfgAllOff.pp_fraction_of_catch ≤ 1) ∧
    CN_effective cfgAllOff ≤ cfgAllOff.base_CN * cfgAllOff.slope_note.factor :=
  ⟨⟨by norm_num [cfgAllOff], by norm_num [cfgAllOff], by norm_num [cfgAllOff],
      by norm_num [cfgAllOff], by norm_num [cfgAllOff]⟩,
    CN_effective_le_base_times_slope cfgAllOff (by norm_num [cfgAllOff])
      (by norm_num [cfgAllOff]) (by norm_num [cfgAllOff])
      (by norm_num [cfgAllOff]) (by norm_num [cfgAllOff])⟩
